import Mathlib

/-!
Verification of the secure-backend service (src/secure-backend/app.py).

The service is a FastAPI application with two endpoints:
  - GET /health      (health_check, app.py lines 38-44)
  - POST /process    (process_data, app.py lines 46-59), guarded by an
    HTTPBearer security dependency (app.py line 25) and verify_token
    (app.py lines 32-36), with a pydantic UserData body (lines 27-30).

The embedding below translates the handlers and the request pipeline into
plain Lean functions.  Timestamps (datetime.now().isoformat()) are modelled
by an explicit DateTime record passed to each handler together with a
faithful implementation of isoformat.  Framework behaviour that the source
invokes (fastapi.security.HTTPBearer, starlette CORSMiddleware, FastAPI's
dependency-before-body-validation order) is embedded following the actual
semantics of those library calls, as noted on each definition.
-/

/-! ### JSON values and request bodies -/

/-- A JSON value, as decoded from a request body.  Only the shapes needed by
the claims are modelled. -/
inductive JsonValue where
  | str : String → JsonValue
  | num : Int → JsonValue
  | boolean : Bool → JsonValue
  | null : JsonValue
deriving DecidableEq

/-- The pydantic model UserData (app.py lines 27-30): three required text
fields. -/
structure UserData where
  firstName : String
  lastName : String
  textData : String
deriving DecidableEq

/-- Extract a text field from a decoded JSON object body: present and a JSON
string.  This is pydantic validation of a `str` field (a missing key or a
non-string value is a validation error). -/
def getStr (body : List (String × JsonValue)) (key : String) : Option String :=
  match body.lookup key with
  | some (JsonValue.str s) => some s
  | _ => none

/-- The field-level validation errors pydantic reports for one field of
UserData: `missing` when the key is absent, `string_type` when the value is
not a string. -/
def fieldError (body : List (String × JsonValue)) (key : String) :
    List (String × String) :=
  match body.lookup key with
  | none => [(key, "missing")]
  | some (JsonValue.str _) => []
  | some _ => [(key, "string_type")]

/-- All field-level validation errors for a UserData body. -/
def fieldErrors (body : List (String × JsonValue)) : List (String × String) :=
  fieldError body "firstName" ++ fieldError body "lastName" ++
    fieldError body "textData"

/-- Validation of a request body against UserData (app.py lines 27-30):
succeeds exactly when all three fields are present as text. -/
def UserData.validate (body : List (String × JsonValue)) :
    Except (List (String × String)) UserData :=
  match getStr body "firstName", getStr body "lastName",
        getStr body "textData" with
  | some f, some l, some t =>
      Except.ok { firstName := f, lastName := l, textData := t }
  | _, _, _ => Except.error (fieldErrors body)

/-! ### Timestamps: datetime.now().isoformat()

Python's `datetime.isoformat()` prints
`YYYY-MM-DDTHH:MM:SS` followed by `.ffffff` exactly when the microsecond
field is nonzero.  `datetime.now()` yields a naive datetime (no timezone
suffix) with year in 1..9999, month 1..12, day 1..31, hour < 24,
minute < 60, second < 60, microsecond < 1000000. -/

/-- A wall-clock reading, one `datetime.now()` result. -/
structure DateTime where
  year : Nat
  month : Nat
  day : Nat
  hour : Nat
  minute : Nat
  second : Nat
  microsecond : Nat
deriving DecidableEq

/-- The field ranges guaranteed by Python's datetime type. -/
def DateTime.valid (dt : DateTime) : Prop :=
  0 < dt.year ∧ dt.year ≤ 9999 ∧ 0 < dt.month ∧ dt.month ≤ 12 ∧
    0 < dt.day ∧ dt.day ≤ 31 ∧ dt.hour ≤ 23 ∧ dt.minute ≤ 59 ∧
    dt.second ≤ 59 ∧ dt.microsecond ≤ 999999

/-- The decimal digit characters. -/
def digitChar : Nat → Char
  | 0 => '0' | 1 => '1' | 2 => '2' | 3 => '3' | 4 => '4'
  | 5 => '5' | 6 => '6' | 7 => '7' | 8 => '8' | _ => '9'

/-- Decimal digits of `n`, most significant first, computed with `fuel`
recursion depth; `fuel` digits suffice for any `n < 10 ^ fuel`. -/
def natDigitsAux : Nat → Nat → List Char
  | 0, _ => []
  | fuel + 1, n =>
      if n < 10 then [digitChar n]
      else natDigitsAux fuel (n / 10) ++ [digitChar (n % 10)]

/-- Left-pad a character list with zeros to width `w`. -/
def zeroPad (w : Nat) (cs : List Char) : List Char :=
  List.replicate (w - cs.length) '0' ++ cs

/-- `n` printed in decimal, zero-padded to width `w` (Python `%0wd`),
exact for `n < 10 ^ w`. -/
def padNum (w n : Nat) : List Char :=
  zeroPad w (natDigitsAux w n)

/-- The character sequence of `datetime.isoformat()`. -/
def DateTime.isoChars (dt : DateTime) : List Char :=
  padNum 4 dt.year ++ '-' ::
  (padNum 2 dt.month ++ '-' ::
  (padNum 2 dt.day ++ 'T' ::
  (padNum 2 dt.hour ++ ':' ::
  (padNum 2 dt.minute ++ ':' ::
  (padNum 2 dt.second ++
    (if dt.microsecond = 0 then []
     else '.' :: padNum 6 dt.microsecond))))))

/-- Python's `datetime.isoformat()`. -/
def DateTime.isoformat (dt : DateTime) : String :=
  String.mk dt.isoChars

/-! ### A syntactic ISO-8601 checker, independent of the printer -/

/-- Accept exactly `k` decimal digit characters, then continue. -/
def eatDigitsB : Nat → (List Char → Bool) → List Char → Bool
  | 0, cont, cs => cont cs
  | _ + 1, _, [] => false
  | k + 1, cont, c :: cs => c.isDigit && eatDigitsB k cont cs

/-- Accept exactly the character `a`, then continue. -/
def eatCharB (a : Char) (cont : List Char → Bool) : List Char → Bool
  | [] => false
  | c :: cs => (c == a) && cont cs

/-- The optional fractional-seconds part: either nothing, or a dot followed
by exactly six digits ending the string. -/
def fracCheck : List Char → Bool
  | [] => true
  | c :: cs => (c == '.') && eatDigitsB 6 List.isEmpty cs

/-- Syntactic validity of an ISO-8601 naive datetime:
`DDDD-DD-DDTDD:DD:DD` optionally followed by `.DDDDDD`. -/
def isValidIso8601Chars : List Char → Bool :=
  eatDigitsB 4 (eatCharB '-' (eatDigitsB 2 (eatCharB '-' (eatDigitsB 2
    (eatCharB 'T' (eatDigitsB 2 (eatCharB ':' (eatDigitsB 2
      (eatCharB ':' (eatDigitsB 2 fracCheck))))))))))

/-- Syntactic validity of an ISO-8601 naive datetime string. -/
def isValidIso8601 (s : String) : Bool :=
  isValidIso8601Chars s.data

/-! ### Digit and padding lemmas -/

theorem digitChar_isDigit : ∀ d : Nat, (digitChar d).isDigit = true
  | 0 => rfl | 1 => rfl | 2 => rfl | 3 => rfl | 4 => rfl
  | 5 => rfl | 6 => rfl | 7 => rfl | 8 => rfl | _ + 9 => rfl

theorem natDigitsAux_spec (w : Nat) :
    ∀ n : Nat, n < 10 ^ w →
      (∀ c ∈ natDigitsAux w n, c.isDigit = true) ∧
        (natDigitsAux w n).length ≤ w := by
  induction w with
  | zero =>
      intro n _
      exact ⟨fun c hc => absurd hc (List.not_mem_nil c), Nat.le_refl 0⟩
  | succ w ih =>
      intro n hn
      by_cases h10 : n < 10
      · constructor
        · intro c hc
          simp only [natDigitsAux, if_pos h10, List.mem_singleton] at hc
          subst hc
          exact digitChar_isDigit n
        · simp [natDigitsAux, if_pos h10]
      · have hdiv : n / 10 < 10 ^ w := by
          rw [Nat.div_lt_iff_lt_mul (by norm_num)]
          calc n < 10 ^ (w + 1) := hn
            _ = 10 ^ w * 10 := pow_succ 10 w
        obtain ⟨ihd, ihl⟩ := ih (n / 10) hdiv
        constructor
        · intro c hc
          simp only [natDigitsAux, if_neg h10, List.mem_append,
            List.mem_singleton] at hc
          rcases hc with hc | hc
          · exact ihd c hc
          · subst hc
            exact digitChar_isDigit (n % 10)
        · simp only [natDigitsAux, if_neg h10, List.length_append,
            List.length_singleton]
          omega

theorem padNum_spec (w n : Nat) (hn : n < 10 ^ w) :
    (padNum w n).length = w ∧ ∀ c ∈ padNum w n, c.isDigit = true := by
  obtain ⟨hdig, hlen⟩ := natDigitsAux_spec w n hn
  constructor
  · simp only [padNum, zeroPad, List.length_append, List.length_replicate]
    omega
  · intro c hc
    simp only [padNum, zeroPad, List.mem_append, List.mem_replicate] at hc
    rcases hc with ⟨_, rfl⟩ | hc
    · rfl
    · exact hdig c hc

theorem eatDigitsB_append (cont : List Char → Bool) (l rest : List Char)
    (hdig : ∀ c ∈ l, c.isDigit = true) :
    eatDigitsB l.length cont (l ++ rest) = cont rest := by
  induction l with
  | nil => rfl
  | cons c cs ih =>
      have hc : c.isDigit = true := hdig c (List.mem_cons_self c cs)
      simp only [List.length_cons, List.cons_append, eatDigitsB, hc,
        Bool.true_and]
      exact ih fun d hd => hdig d (List.mem_cons_of_mem c hd)

theorem eatCharB_cons (a : Char) (cont : List Char → Bool)
    (rest : List Char) : eatCharB a cont (a :: rest) = cont rest := by
  simp [eatCharB]

theorem eatDigitsB_pad (w n : Nat) (cont : List Char → Bool)
    (rest : List Char) (hn : n < 10 ^ w) :
    eatDigitsB w cont (padNum w n ++ rest) = cont rest := by
  obtain ⟨hlen, hdig⟩ := padNum_spec w n hn
  calc eatDigitsB w cont (padNum w n ++ rest)
      = eatDigitsB (padNum w n).length cont (padNum w n ++ rest) := by
        rw [hlen]
    _ = cont rest := eatDigitsB_append cont _ rest hdig

theorem eatDigitsB_pad4 (n : Nat) {cont : List Char → Bool}
    {rest : List Char} (hn : n < 10000) :
    eatDigitsB 4 cont (padNum 4 n ++ rest) = cont rest :=
  eatDigitsB_pad 4 n cont rest (by norm_num [hn])

theorem eatDigitsB_pad2 (n : Nat) {cont : List Char → Bool}
    {rest : List Char} (hn : n < 100) :
    eatDigitsB 2 cont (padNum 2 n ++ rest) = cont rest :=
  eatDigitsB_pad 2 n cont rest (by norm_num [hn])

theorem eatDigitsB_pad6 (n : Nat) {cont : List Char → Bool}
    {rest : List Char} (hn : n < 1000000) :
    eatDigitsB 6 cont (padNum 6 n ++ rest) = cont rest :=
  eatDigitsB_pad 6 n cont rest (by norm_num [hn])

/-- The printer always produces a syntactically valid ISO-8601 string on
in-range datetimes. -/
theorem isoformat_valid (dt : DateTime) (h : dt.valid) :
    isValidIso8601 dt.isoformat = true := by
  obtain ⟨h1, h2, h3, h4, h5, h6, h7, h8, h9, h10⟩ := h
  show isValidIso8601Chars dt.isoChars = true
  unfold DateTime.isoChars isValidIso8601Chars
  rw [eatDigitsB_pad4 dt.year (by omega), eatCharB_cons,
    eatDigitsB_pad2 dt.month (by omega), eatCharB_cons,
    eatDigitsB_pad2 dt.day (by omega), eatCharB_cons,
    eatDigitsB_pad2 dt.hour (by omega), eatCharB_cons,
    eatDigitsB_pad2 dt.minute (by omega), eatCharB_cons,
    eatDigitsB_pad2 dt.second (by omega)]
  by_cases hms : dt.microsecond = 0
  · rw [if_pos hms]
    rfl
  · rw [if_neg hms]
    show fracCheck ('.' :: padNum 6 dt.microsecond) = true
    simp only [fracCheck]
    rw [show (('.' : Char) == '.') = true from rfl, Bool.true_and,
      ← List.append_nil (padNum 6 dt.microsecond),
      eatDigitsB_pad6 dt.microsecond (by omega)]
    rfl

/-! ### Bearer-token extraction and verification

`security = HTTPBearer()` (app.py line 25).  Models
`fastapi.security.HTTPBearer.__call__` with the default `auto_error=True`:
the Authorization header value is split at the first space into
`scheme` and `credentials` (Python `str.partition(" ")`); if the header is
absent, or header/scheme/credentials is empty, it raises
HTTP 403 "Not authenticated"; if the scheme does not lowercase to
"bearer" it raises HTTP 403 "Invalid authentication credentials";
otherwise it yields the credentials string. -/

/-- Split a character list at the first space: `some (before, after)`
when a space occurs, `none` otherwise. -/
def splitAtFirstSpace : List Char → Option (List Char × List Char)
  | [] => none
  | c :: cs =>
      if c = ' ' then some ([], cs)
      else
        match splitAtFirstSpace cs with
        | some (pre, post) => some (c :: pre, post)
        | none => none

/-- Python `s.partition(" ")`, keeping the first and last components:
the part before the first space and the part after it (the whole string
and "" when there is no space). -/
def partitionSpace (s : String) : String × String :=
  match splitAtFirstSpace s.data with
  | some (pre, post) => (String.mk pre, String.mk post)
  | none => (s, "")

/-- ASCII lowercasing of one character (agrees with Python `str.lower`
on the ASCII scheme names compared against "bearer"). -/
def lowerChar (c : Char) : Char :=
  if 65 ≤ c.toNat ∧ c.toNat ≤ 90 then Char.ofNat (c.toNat + 32) else c

/-- ASCII lowercasing of a string. -/
def lowerString (s : String) : String :=
  String.mk (s.data.map lowerChar)

/-- An HTTP error as FastAPI surfaces an HTTPException: status code and
detail string. -/
abbrev HttpError := Nat × String

/-- `fastapi.security.HTTPBearer` applied to the optional Authorization
header of a request: yields the extracted bearer credentials or an
HTTP 403 error. -/
def httpBearer : Option String → Except HttpError String
  | none => Except.error (403, "Not authenticated")
  | some authorization =>
      let p := partitionSpace authorization
      if authorization = "" ∨ p.1 = "" ∨ p.2 = "" then
        Except.error (403, "Not authenticated")
      else if lowerString p.1 ≠ "bearer" then
        Except.error (403, "Invalid authentication credentials")
      else Except.ok p.2

/-- The authentication context produced by verify_token. -/
structure AuthContext where
  authenticated : Bool
  user : String
deriving DecidableEq

/-- verify_token (app.py lines 32-36): compares the extracted credentials
against the fixed secret, yielding the demo authentication context on
success and HTTP 401 "Invalid token" otherwise. -/
def verify_token (token : String) : Except HttpError AuthContext :=
  if token = "demo-secure-token" then
    Except.ok { authenticated := true, user := "demo-user" }
  else Except.error (401, "Invalid token")

/-! ### Handlers -/

/-- The authentication_analysis block of a /process response
(app.py lines 50-54). -/
structure AuthAnalysis where
  timestamp : String
  authenticated : Bool
  service : String
deriving DecidableEq

/-- The processing_details block of a /process response
(app.py lines 55-58). -/
structure ProcessingDetails where
  data_length : Nat
  processed_at : String
deriving DecidableEq

/-- The body of a successful /process response (app.py lines 48-59). -/
structure ProcessResult where
  message : String
  authentication_analysis : AuthAnalysis
  processing_details : ProcessingDetails
deriving DecidableEq

/-- The body of a /health response (app.py lines 40-44). -/
structure HealthResult where
  status : String
  timestamp : String
  service : String
deriving DecidableEq

/-- health_check (app.py lines 38-44); `now` is the datetime.now()
reading taken inside the handler. -/
def health_check (now : DateTime) : HealthResult :=
  { status := "healthy"
  , timestamp := now.isoformat
  , service := "secure-backend-aks" }

/-- process_data's response construction (app.py lines 48-59); `t1` and
`t2` are the two datetime.now() readings taken on lines 51 and 57.  The
message is the f-string
`Hello {data.firstName} {data.lastName}. Received: {data.textData}` and
data_length is Python `len(data.textData)` (a count of characters). -/
def process_data (data : UserData) (t1 t2 : DateTime) : ProcessResult :=
  { message := "Hello " ++ data.firstName ++ " " ++ data.lastName ++
      ". Received: " ++ data.textData
  , authentication_analysis :=
      { timestamp := t1.isoformat
      , authenticated := true
      , service := "Private AKS Backend" }
  , processing_details :=
      { data_length := data.textData.length
      , processed_at := t2.isoformat } }

/-! ### The request pipeline -/

/-- An incoming HTTP request, as far as the two endpoints inspect it:
the optional Authorization header and the decoded JSON object body. -/
structure Request where
  authorization : Option String
  body : List (String × JsonValue)
deriving DecidableEq

/-- The possible responses of the two endpoints. -/
inductive HttpResponse where
  | err (status : Nat) (detail : String)
  | unprocessable (errors : List (String × String))
  | okProcess (result : ProcessResult)
  | okHealth (result : HealthResult)
deriving DecidableEq

/-- The HTTP status code of a response: HTTPException errors carry their
own code, validation failures are 422, handler results are 200. -/
def statusOf : HttpResponse → Nat
  | HttpResponse.err status _ => status
  | HttpResponse.unprocessable _ => 422
  | HttpResponse.okProcess _ => 200
  | HttpResponse.okHealth _ => 200

/-- Body validation and handler invocation for POST /process, reached only
after the security dependency succeeded (FastAPI solves dependencies
before converting body parameters). -/
def processBodyStage (req : Request) (t1 t2 : DateTime) : HttpResponse :=
  match UserData.validate req.body with
  | Except.error errs => HttpResponse.unprocessable errs
  | Except.ok data => HttpResponse.okProcess (process_data data t1 t2)

/-- The full POST /process pipeline: HTTPBearer extraction, then
verify_token, then body validation, then the handler — the order in which
FastAPI evaluates the route's dependencies and body parameters. -/
def handleProcess (req : Request) (t1 t2 : DateTime) : HttpResponse :=
  match httpBearer req.authorization with
  | Except.error e => HttpResponse.err e.1 e.2
  | Except.ok cred =>
      match verify_token cred with
      | Except.error e => HttpResponse.err e.1 e.2
      | Except.ok _ => processBodyStage req t1 t2

/-- The two routes of the application. -/
inductive Route where
  | health
  | process
deriving DecidableEq

/-- One dispatched request: a route, the request data, and the (at most
two) clock readings the handlers take. -/
structure ApiRequest where
  route : Route
  req : Request
  t1 : DateTime
  t2 : DateTime
deriving DecidableEq

/-- The gateway dispatch: GET /health ignores the request data and never
fails; POST /process runs the guarded pipeline. -/
def handleRequest (r : ApiRequest) : HttpResponse :=
  match r.route with
  | Route.health => HttpResponse.okHealth (health_check r.t1)
  | Route.process => handleProcess r.req r.t1 r.t2

/-- A whole sequence of requests served by the (stateless) application:
the handlers read and write no server state, so serving a batch is a map. -/
def runRequests (rs : List ApiRequest) : List HttpResponse :=
  rs.map handleRequest

/-! ### CORS configuration (app.py lines 14-23)

Models starlette's CORSMiddleware as configured by app.add_middleware:
`allow_origins` entries are compared to a request origin by exact string
equality (the middleware pattern-matches origins only through the separate
allow_origin_regex option, which the source does not set, and treats a
bare "*" entry specially, which the list does not contain).  On a simple
response the middleware first applies its precomputed simple_headers to
EVERY response whose request carries an Origin header — with
allow_credentials enabled these consist of
Access-Control-Allow-Credentials: true — and then, only when the origin is
an exact member of allow_origins, additionally sets
Access-Control-Allow-Origin reflecting the origin.  A disallowed origin
therefore still receives the Allow-Credentials header but never an
Allow-Origin header. -/

/-- The configured origin allow-list (app.py lines 16-19). -/
def allow_origins : List String :=
  ["https://frontend-webapp-container.azurewebsites.net",
   "https://*.azurewebsites.net"]

/-- The configured allowed methods (app.py line 21). -/
def allow_methods : List String := ["GET", "POST", "OPTIONS"]

/-- The configured allowed headers (app.py line 22). -/
def allow_headers : List String := ["*"]

/-- The configured allow_credentials flag (app.py line 20). -/
def allow_credentials : Bool := true

/-- The CORS headers starlette's CORSMiddleware attaches to a simple
response for a given request origin: the simple_headers
(Access-Control-Allow-Credentials, since allow_credentials is set) are
applied unconditionally, and Access-Control-Allow-Origin is added exactly
when the origin is a literal member of allow_origins. -/
def corsResponseHeaders (origin : String) : List (String × String) :=
  if allow_origins.contains origin then
    [("Access-Control-Allow-Credentials", "true"),
     ("Access-Control-Allow-Origin", origin)]
  else [("Access-Control-Allow-Credentials", "true")]

/-- `true` when an origin matches the wildcard-subdomain pattern
`https://*.azurewebsites.net` in the sense the specification describes:
`https://` then at least one character then `.azurewebsites.net`. -/
def listTakesShape (pre suffRev : List Char) (o : List Char) : Bool :=
  pre.isPrefixOf o && suffRev.isPrefixOf o.reverse

/-- Whether an origin matches the wildcard-subdomain pattern from the
specification. -/
def matchesWildcard (origin : String) : Bool :=
  listTakesShape "https://".data ".azurewebsites.net".data.reverse
      origin.data &&
    decide ("https://".length + ".azurewebsites.net".length <
      origin.length)

/-! ### Helper lemmas about the pipeline -/

theorem fieldError_ne_nil (body : List (String × JsonValue)) (key : String)
    (hk : getStr body key = none) : fieldError body key ≠ [] := by
  unfold getStr at hk
  unfold fieldError
  rcases hl : body.lookup key with _ | v
  · simp
  · rw [hl] at hk
    cases v with
    | str s => simp at hk
    | num n => simp
    | boolean b => simp
    | null => simp

theorem fieldErrors_ne_nil (body : List (String × JsonValue))
    (hd : getStr body "firstName" = none ∨ getStr body "lastName" = none ∨
      getStr body "textData" = none) : fieldErrors body ≠ [] := by
  intro hnil
  unfold fieldErrors at hnil
  rw [List.append_eq_nil, List.append_eq_nil] at hnil
  rcases hd with hd | hd | hd
  · exact fieldError_ne_nil body "firstName" hd hnil.1.1
  · exact fieldError_ne_nil body "lastName" hd hnil.1.2
  · exact fieldError_ne_nil body "textData" hd hnil.2

theorem validate_error_inv (body : List (String × JsonValue))
    (errs : List (String × String))
    (h : UserData.validate body = Except.error errs) :
    errs = fieldErrors body ∧ errs ≠ [] := by
  unfold UserData.validate at h
  rcases h1 : getStr body "firstName" with _ | f <;>
    rcases h2 : getStr body "lastName" with _ | l <;>
      rcases h3 : getStr body "textData" with _ | t <;>
        rw [h1, h2, h3] at h <;> simp at h <;>
          exact ⟨h.symm, h ▸ fieldErrors_ne_nil body (by first
            | exact Or.inl h1
            | exact Or.inr (Or.inl h2)
            | exact Or.inr (Or.inr h3))⟩

theorem handleProcess_ok_inv (req : Request) (t1 t2 : DateTime)
    (r : ProcessResult)
    (h : handleProcess req t1 t2 = HttpResponse.okProcess r) :
    ∃ data, UserData.validate req.body = Except.ok data ∧
      r = process_data data t1 t2 := by
  unfold handleProcess at h
  split at h
  · exact HttpResponse.noConfusion h
  · split at h
    · exact HttpResponse.noConfusion h
    · unfold processBodyStage at h
      split at h
      · exact HttpResponse.noConfusion h
      · rename_i data hval
        exact ⟨data, hval, (HttpResponse.okProcess.inj h).symm⟩

/-! ### Concrete fixtures -/

/-- A body carrying all three required text fields. -/
def validBody : List (String × JsonValue) :=
  [("firstName", JsonValue.str "Ada"), ("lastName", JsonValue.str "Lovelace"),
   ("textData", JsonValue.str "hello")]

/-- The same three fields permuted, with an extra field pydantic ignores. -/
def permutedBody : List (String × JsonValue) :=
  [("textData", JsonValue.str "hello"), ("extra", JsonValue.num 7),
   ("firstName", JsonValue.str "Ada"), ("lastName", JsonValue.str "Lovelace")]

/-- A correctly authenticated request with the example body. -/
def adaReq : Request :=
  { authorization := some "Bearer demo-secure-token", body := validBody }

/-- A correctly authenticated request written with a lowercase scheme and
the permuted body. -/
def altReq : Request :=
  { authorization := some "bearer demo-secure-token", body := permutedBody }

/-- A correctly authenticated request whose body is missing lastName and
carries a non-string textData. -/
def missingBodyReq : Request :=
  { authorization := some "Bearer demo-secure-token"
  , body := [("firstName", JsonValue.str "Ada"),
             ("textData", JsonValue.num 3)] }

/-- A request with no Authorization header and a fully valid body. -/
def noAuthReq : Request := { authorization := none, body := validBody }

/-- A request with a well-formed but wrong bearer token and a valid body. -/
def wrongReq : Request :=
  { authorization := some "Bearer wrong-token", body := validBody }

/-- A request with a wrong bearer token and an empty body. -/
def wrongEmptyReq : Request :=
  { authorization := some "Bearer wrong-token", body := [] }

/-- A request with neither authentication nor body content. -/
def anonReq : Request := { authorization := none, body := [] }

/-- The example UserData from the specification. -/
def dAda : UserData :=
  { firstName := "Ada", lastName := "Lovelace", textData := "hello" }

/-- The example UserData with empty textData. -/
def dEmpty : UserData :=
  { firstName := "Ada", lastName := "Lovelace", textData := "" }

/-- The example UserData with multi-byte textData of five characters. -/
def dMulti : UserData :=
  { firstName := "Ada", lastName := "Lovelace", textData := "héllo" }

/-- A clock reading with zero microseconds. -/
def t0 : DateTime := ⟨2025, 6, 1, 10, 0, 0, 0⟩

/-- A clock reading with nonzero microseconds. -/
def t1c : DateTime := ⟨2025, 1, 15, 12, 30, 45, 123456⟩

/-- An unauthenticated dispatched GET /health request. -/
def healthProbe : ApiRequest :=
  { route := Route.health, req := anonReq, t1 := t1c, t2 := t1c }

/-! ### The claims -/

/-- Claim C1, counterexample: a POST /process request with NO authorization
header and a fully valid body is answered 403 "Not authenticated" by the
HTTPBearer dependency, not 401 with detail "Invalid token" as the claim
states for absent credentials. -/
theorem claim1_counterexample :
    handleProcess noAuthReq t0 t0 =
      HttpResponse.err 403 "Not authenticated" ∧
    handleProcess noAuthReq t0 t0 ≠
      HttpResponse.err 401 "Invalid token" :=
  ⟨rfl, by decide⟩

/-- Claim C1, amended: a request whose authorization header yields a
well-formed bearer credential different from the fixed secret is answered
HTTP 401 with detail "Invalid token"; a request on which bearer extraction
itself fails (absent header, empty credential, or non-bearer scheme) is
answered HTTP 403 with the extractor's detail instead. -/
theorem claim1_auth :
    (∀ (req : Request) (t1 t2 : DateTime) (cred : String),
        httpBearer req.authorization = Except.ok cred →
        cred ≠ "demo-secure-token" →
        handleProcess req t1 t2 = HttpResponse.err 401 "Invalid token") ∧
    (∀ (req : Request) (t1 t2 : DateTime) (d : String),
        httpBearer req.authorization = Except.error (403, d) →
        handleProcess req t1 t2 = HttpResponse.err 403 d) := by
  constructor
  · intro req t1 t2 cred hb hne
    have hv : verify_token cred = Except.error (401, "Invalid token") := by
      unfold verify_token
      rw [if_neg hne]
    unfold handleProcess
    simp only [hb, hv]
  · intro req t1 t2 d hb
    unfold handleProcess
    simp only [hb]

/-- Claim C1, witness: a well-formed wrong token receives 401. -/
theorem claim1_auth_witness :
    handleProcess wrongReq t0 t0 = HttpResponse.err 401 "Invalid token" :=
  claim1_auth.1 wrongReq t0 t0 "wrong-token" rfl (by decide)

/-- Claim C2: for every request with the correct bearer token whose body
validates to a UserData, the /process response is the handler result and
its message is the literal concatenation of the greeting around the three
fields. -/
theorem claim2_message (req : Request) (data : UserData) (t1 t2 : DateTime)
    (hauth : req.authorization = some "Bearer demo-secure-token")
    (hval : UserData.validate req.body = Except.ok data) :
    handleProcess req t1 t2 =
      HttpResponse.okProcess (process_data data t1 t2) ∧
    (process_data data t1 t2).message =
      "Hello " ++ data.firstName ++ " " ++ data.lastName ++ ". Received: " ++
        data.textData := by
  have hb : httpBearer (some "Bearer demo-secure-token") =
      Except.ok "demo-secure-token" := rfl
  have hv : verify_token "demo-secure-token" =
      Except.ok { authenticated := true, user := "demo-user" } := rfl
  constructor
  · unfold handleProcess
    simp only [hauth, hb, hv]
    unfold processBodyStage
    simp only [hval]
  · rfl

/-- Claim C2, witness: the Ada Lovelace example evaluates to the literal
message from the specification. -/
theorem claim2_message_witness :
    handleProcess adaReq t0 t0 =
      HttpResponse.okProcess (process_data dAda t0 t0) ∧
    (process_data dAda t0 t0).message =
      "Hello Ada Lovelace. Received: hello" := by
  have h := claim2_message adaReq dAda t0 t0 rfl rfl
  exact ⟨h.1, h.2.trans (by decide)⟩

/-- Claim C3: data_length in the /process response always equals the
character count of textData, including for the empty string and for
multi-byte text. -/
theorem claim3_data_length :
    (∀ (data : UserData) (t1 t2 : DateTime),
        (process_data data t1 t2).processing_details.data_length =
          data.textData.length) ∧
    (process_data dAda t0 t0).processing_details.data_length = 5 ∧
    (process_data dEmpty t0 t0).processing_details.data_length = 0 ∧
    (process_data dMulti t0 t0).processing_details.data_length = 5 :=
  ⟨fun _ _ _ => rfl, rfl, rfl, rfl⟩

/-- Claim C4, counterexample: a request whose body is missing every
required field but whose bearer token is wrong is answered 401 (the
security dependency runs before body validation), not 422 as the claim
states for every field-missing request. -/
theorem claim4_counterexample :
    handleProcess wrongEmptyReq t0 t0 =
      HttpResponse.err 401 "Invalid token" ∧
    statusOf (handleProcess wrongEmptyReq t0 t0) ≠ 422 :=
  ⟨rfl, by decide⟩

/-- Claim C4, amended: for every request that passes authentication (its
token is the fixed secret) and whose body fails UserData validation, the
response is 422 carrying the field-level errors, the error list is
nonempty, and the process handler result is never produced. -/
theorem claim4_validation (req : Request) (t1 t2 : DateTime)
    (errs : List (String × String))
    (hauth : req.authorization = some "Bearer demo-secure-token")
    (hval : UserData.validate req.body = Except.error errs) :
    handleProcess req t1 t2 = HttpResponse.unprocessable errs ∧
    statusOf (handleProcess req t1 t2) = 422 ∧
    errs ≠ [] ∧
    ∀ r, handleProcess req t1 t2 ≠ HttpResponse.okProcess r := by
  have hb : httpBearer (some "Bearer demo-secure-token") =
      Except.ok "demo-secure-token" := rfl
  have hv : verify_token "demo-secure-token" =
      Except.ok { authenticated := true, user := "demo-user" } := rfl
  have key : handleProcess req t1 t2 = HttpResponse.unprocessable errs := by
    unfold handleProcess
    simp only [hauth, hb, hv]
    unfold processBodyStage
    simp only [hval]
  obtain ⟨_, hne⟩ := validate_error_inv req.body errs hval
  refine ⟨key, by rw [key]; rfl, hne, ?_⟩
  intro r hr
  rw [key] at hr
  exact HttpResponse.noConfusion hr

/-- Claim C4, witness: an authenticated request missing lastName and
carrying a numeric textData receives 422 with both field errors. -/
theorem claim4_validation_witness :
    handleProcess missingBodyReq t0 t0 =
      HttpResponse.unprocessable
        [("lastName", "missing"), ("textData", "string_type")] ∧
    statusOf (handleProcess missingBodyReq t0 t0) = 422 ∧
    ([("lastName", "missing"), ("textData", "string_type")] :
        List (String × String)) ≠ [] ∧
    ∀ r, handleProcess missingBodyReq t0 t0 ≠ HttpResponse.okProcess r :=
  claim4_validation missingBodyReq t0 t0
    [("lastName", "missing"), ("textData", "string_type")] rfl rfl

/-- Claim C5: GET /health, for any request data whatsoever (in particular
regardless of authentication) and any in-range clock reading, returns 200
with status "healthy", service "secure-backend-aks", and a syntactically
valid ISO-8601 timestamp; the handler is a total function, so it has no
failure modes. -/
theorem claim5_health (req : Request) (t1 t2 : DateTime) (h : t1.valid) :
    handleRequest
        { route := Route.health, req := req, t1 := t1, t2 := t2 } =
      HttpResponse.okHealth (health_check t1) ∧
    statusOf (handleRequest
        { route := Route.health, req := req, t1 := t1, t2 := t2 }) = 200 ∧
    (health_check t1).status = "healthy" ∧
    (health_check t1).service = "secure-backend-aks" ∧
    isValidIso8601 (health_check t1).timestamp = true :=
  ⟨rfl, rfl, rfl, rfl, isoformat_valid t1 h⟩

/-- Claim C5, witness: an unauthenticated health request at a concrete
time with nonzero microseconds. -/
theorem claim5_health_witness :
    handleRequest healthProbe = HttpResponse.okHealth (health_check t1c) ∧
    statusOf (handleRequest healthProbe) = 200 ∧
    (health_check t1c).status = "healthy" ∧
    (health_check t1c).service = "secure-backend-aks" ∧
    isValidIso8601 (health_check t1c).timestamp = true :=
  claim5_health anonReq t1c t1c (by simp [DateTime.valid, t1c])

/-- Claim C6: presenting exactly the fixed secret makes verify_token
succeed with precisely the context of authenticated true and user
"demo-user", and no successful verification ever produces another
context. -/
theorem claim6_auth_context :
    verify_token "demo-secure-token" =
      Except.ok { authenticated := true, user := "demo-user" } ∧
    ∀ (cred : String) (ctx : AuthContext),
      verify_token cred = Except.ok ctx →
      ctx = { authenticated := true, user := "demo-user" } := by
  refine ⟨rfl, ?_⟩
  intro cred ctx h
  unfold verify_token at h
  split at h
  · injection h with h1
    exact h1.symm
  · exact Except.noConfusion h

/-- Claim C6, witness: the successful verification at the secret itself. -/
theorem claim6_auth_context_witness :
    ({ authenticated := true, user := "demo-user" } : AuthContext) =
      { authenticated := true, user := "demo-user" } :=
  claim6_auth_context.2 "demo-secure-token"
    { authenticated := true, user := "demo-user" } rfl

/-- Claim C7, counterexample: the origin
`https://evil.azurewebsites.net` matches the wildcard-subdomain pattern
the claim describes, yet its response carries only the unconditional
Access-Control-Allow-Credentials header and no Access-Control-Allow-Origin
reflecting it, because starlette compares allow_origins entries by exact
string equality and the entry `https://*.azurewebsites.net` is only the
literal string containing an asterisk. -/
theorem claim7_counterexample :
    matchesWildcard "https://evil.azurewebsites.net" = true ∧
    corsResponseHeaders "https://evil.azurewebsites.net" =
      [("Access-Control-Allow-Credentials", "true")] ∧
    ("Access-Control-Allow-Origin", "https://evil.azurewebsites.net") ∉
      corsResponseHeaders "https://evil.azurewebsites.net" :=
  ⟨rfl, rfl, by decide⟩

/-- Claim C7, amended: every simple response to an Origin-bearing request
carries Access-Control-Allow-Credentials true (allow_credentials is
enabled), but Access-Control-Allow-Origin reflecting the origin is
attached only when the origin is literally equal to one of the two
configured allow_origins entries (the exact frontend origin, or the
literal string of the wildcard entry itself); an origin not literally in
the list — in particular one merely matching the wildcard-subdomain
pattern — gets the Allow-Credentials header alone.  The configuration
allows methods GET, POST, OPTIONS and headers *. -/
theorem claim7_cors :
    (∀ origin : String, origin ∈ allow_origins →
        corsResponseHeaders origin =
          [("Access-Control-Allow-Credentials", "true"),
           ("Access-Control-Allow-Origin", origin)]) ∧
    (∀ origin : String, origin ∉ allow_origins →
        corsResponseHeaders origin =
          [("Access-Control-Allow-Credentials", "true")]) ∧
    allow_credentials = true ∧
    allow_methods = ["GET", "POST", "OPTIONS"] ∧
    allow_headers = ["*"] := by
  refine ⟨?_, ?_, rfl, rfl, rfl⟩
  · intro origin h
    simp [corsResponseHeaders, h]
  · intro origin h
    simp [corsResponseHeaders, h]

/-- Claim C7, witness: the exact configured frontend origin receives the
reflected Allow-Origin header, while a wildcard-matching origin receives
only the Allow-Credentials header. -/
theorem claim7_cors_witness :
    corsResponseHeaders
        "https://frontend-webapp-container.azurewebsites.net" =
      [("Access-Control-Allow-Credentials", "true"),
       ("Access-Control-Allow-Origin",
        "https://frontend-webapp-container.azurewebsites.net")] ∧
    corsResponseHeaders "https://evil.azurewebsites.net" =
      [("Access-Control-Allow-Credentials", "true")] :=
  ⟨claim7_cors.1 "https://frontend-webapp-container.azurewebsites.net"
      (by decide),
   claim7_cors.2.1 "https://evil.azurewebsites.net" (by decide)⟩

/-- Claim C8: the application keeps no mutable server state (the handlers
only read their own request and clock), so serving a batch of requests is
a pointwise map: the response in any position is exactly the handler
applied to that request, unchanged by the requests before or after it,
including failed ones. -/
theorem claim8_stateless (pre post : List ApiRequest) (r : ApiRequest) :
    runRequests (pre ++ r :: post) =
      runRequests pre ++ handleRequest r :: runRequests post ∧
    (runRequests (pre ++ r :: post))[pre.length]? =
      some (handleRequest r) := by
  constructor
  · simp [runRequests]
  · induction pre with
    | nil => simp [runRequests]
    | cons a as ih =>
        simpa [runRequests, List.cons_append, List.map_cons,
          List.length_cons, List.getElem?_cons_succ] using ih

/-- Claim C9: every successful /process response has authenticated true
and service "Private AKS Backend" in its authentication_analysis block,
independently of the input, and that label differs from the
"secure-backend-aks" label of every /health response. -/
theorem claim9_process_constants (req : Request) (t1 t2 : DateTime)
    (r : ProcessResult)
    (h : handleProcess req t1 t2 = HttpResponse.okProcess r) :
    r.authentication_analysis.authenticated = true ∧
    r.authentication_analysis.service = "Private AKS Backend" ∧
    (∀ t : DateTime, (health_check t).service = "secure-backend-aks") ∧
    r.authentication_analysis.service ≠ (health_check t1).service := by
  obtain ⟨data, _, hr⟩ := handleProcess_ok_inv req t1 t2 r h
  subst hr
  refine ⟨rfl, rfl, fun t => rfl, ?_⟩
  show ("Private AKS Backend" : String) ≠ "secure-backend-aks"
  decide

/-- Claim C9, witness: the constants on the concrete Ada request. -/
theorem claim9_process_constants_witness :
    (process_data dAda t0 t0).authentication_analysis.authenticated =
      true ∧
    (process_data dAda t0 t0).authentication_analysis.service =
      "Private AKS Backend" ∧
    (∀ t : DateTime, (health_check t).service = "secure-backend-aks") ∧
    (process_data dAda t0 t0).authentication_analysis.service ≠
      (health_check t0).service :=
  claim9_process_constants adaReq t0 t0 (process_data dAda t0 t0) rfl

/-- Claim C10: apart from the timestamps, a successful /process response
is a function of the validated UserData alone: two successful requests
whose bodies validate to the same UserData receive the same message,
data_length, authenticated flag, and service label, whatever their other
request data (headers, credential spelling, extra body fields) and
whatever the clock read. -/
theorem claim10_determinism (req1 req2 : Request) (a1 b1 a2 b2 : DateTime)
    (r1 r2 : ProcessResult) (d : UserData)
    (h1 : handleProcess req1 a1 b1 = HttpResponse.okProcess r1)
    (h2 : handleProcess req2 a2 b2 = HttpResponse.okProcess r2)
    (hv1 : UserData.validate req1.body = Except.ok d)
    (hv2 : UserData.validate req2.body = Except.ok d) :
    r1.message = r2.message ∧
    r1.processing_details.data_length =
      r2.processing_details.data_length ∧
    r1.authentication_analysis.authenticated =
      r2.authentication_analysis.authenticated ∧
    r1.authentication_analysis.service =
      r2.authentication_analysis.service := by
  obtain ⟨d1, hd1, hr1⟩ := handleProcess_ok_inv req1 a1 b1 r1 h1
  obtain ⟨d2, hd2, hr2⟩ := handleProcess_ok_inv req2 a2 b2 r2 h2
  rw [hv1] at hd1
  rw [hv2] at hd2
  injection hd1 with e1
  injection hd2 with e2
  subst e1
  subst e2
  subst hr1
  subst hr2
  exact ⟨rfl, rfl, rfl, rfl⟩

/-- Claim C10, witness: two requests with differently spelled bearer
schemes, permuted bodies, one extra field, and different clock readings
agree on all four non-timestamp fields. -/
theorem claim10_determinism_witness :
    (process_data dAda t0 t0).message =
      (process_data dAda t1c t1c).message ∧
    (process_data dAda t0 t0).processing_details.data_length =
      (process_data dAda t1c t1c).processing_details.data_length ∧
    (process_data dAda t0 t0).authentication_analysis.authenticated =
      (process_data dAda t1c t1c).authentication_analysis.authenticated ∧
    (process_data dAda t0 t0).authentication_analysis.service =
      (process_data dAda t1c t1c).authentication_analysis.service :=
  claim10_determinism adaReq altReq t0 t0 t1c t1c
    (process_data dAda t0 t0) (process_data dAda t1c t1c) dAda
    rfl rfl rfl rfl
